import Mathlib

/-!
Shallow embedding of the dependency-aware task execution engine of the
backend coding challenge repository: `TaskRunner.run`,
`TaskRunner.checkDependencyCycle`, `TaskRunner.generateErrorResult`, the
workflow aggregation step at the end of `run`, and the dependency lookup
used by `WorkflowFactory.createWorkflowFromYAML`.

Two variants of the runner exist in the sources: `src/workers/taskRunner.ts`
(suffixed `V1` below, dependency held as an object relation) and the unnamed
variant (suffixed `V2`, dependency held as a `dependsOn` step number, with a
dependency-not-found branch).  Persistence is modelled by explicit tables:
the task repository is a `List Task`, the result repository a
`List ResultRow`.  `taskRepository.findOne({ where: { stepNumber } })`
becomes `findByStep`, which — exactly as in the source — searches the whole
task table with no workflow filter.
-/

namespace Engine

inductive TaskStatus where
  | queued
  | inProgress
  | completed
  | failed
  | blocked
deriving DecidableEq, Repr

inductive WorkflowStatus where
  | initial
  | inProgress
  | completed
  | failed
deriving DecidableEq, Repr

structure Task where
  taskId : Nat
  workflowId : Nat
  stepNumber : Nat
  taskType : String
  dependsOn : Option Nat
  status : TaskStatus
  progress : Option String
  resultId : Option Nat
deriving DecidableEq, Repr

/-- The serialized `Result.data` JSON object: every payload the engine
stores has the shape `{output, error}` (`generateErrorResult` writes
`{output: reason, error: true}`; the jobs of the unnamed variant return
`{output, error}` objects). -/
structure Payload where
  output : String
  error : Bool
deriving DecidableEq, Repr

structure ResultRow where
  resultId : Nat
  taskId : Nat
  data : Payload
deriving DecidableEq, Repr

structure Workflow where
  workflowId : Nat
  status : WorkflowStatus
  finalResult : Option String
deriving DecidableEq, Repr

/-- `taskRepository.findOne({ where: { stepNumber } })`: first task in the
whole table with that step number — there is no workflow filter in the
source query. -/
def findByStep (table : List Task) (step : Nat) : Option Task :=
  table.find? (fun t => t.stepNumber == step)

/-- `taskRepository.save(t)`: update the row with `t.taskId`, inserting it
when absent. -/
def saveTask (table : List Task) (t : Task) : List Task :=
  if table.any (fun u => u.taskId == t.taskId) then
    table.map (fun u => if u.taskId == t.taskId then t else u)
  else
    table ++ [t]

/-- `TaskRunner.generateErrorResult`: persist a new
`Result` with `data = JSON.stringify({output: reason, error: true})`.
The auto-incremented result id is modelled as the current table length. -/
def generateErrorResult (results : List ResultRow) (t : Task) (reason : String) :
    List ResultRow :=
  results ++ [⟨results.length, t.taskId, ⟨reason, true⟩⟩]

/-- `TaskRunner.checkDependencyCycle(stepNumber, visitedTasks)` of the
unnamed variant, with an explicit fuel parameter: `none` models the
recursion running out of fuel (the source has no fuel — termination is
proved below: fuel `table.length + 1` never returns `none`). -/
def checkDependencyCycleFuel (table : List Task) :
    Nat → Nat → List Nat → Option Bool
  | 0, _, _ => none
  | fuel + 1, stepNumber, visited =>
    if stepNumber ∈ visited then
      some true
    else
      match findByStep table stepNumber with
      | none => some false
      | some currentTask =>
        match currentTask.dependsOn with
        | none => some false
        | some dep =>
          match findByStep table dep with
          | none => some false
          | some depTask =>
            checkDependencyCycleFuel table fuel depTask.stepNumber
              (stepNumber :: visited)

/-- The cycle check as `run` uses it: started with the empty visited set.
Fuel `table.length + 1` is always sufficient (see the termination theorem), so
the `getD false` default is never taken. -/
def checkDependencyCycle (table : List Task) (stepNumber : Nat) : Bool :=
  (checkDependencyCycleFuel table (table.length + 1) stepNumber []).getD false

/-- Modelled from the spec: the Job Registry (`getJobForTaskType` in
`JobFactory`, whose source file is not under `src/`) either yields a job —
whose invocation `job.run(task)` returns a payload or raises — or itself
raises when no job is registered for the task type ("fails with
`UnknownJobType` if absent").  The combined behaviour of lookup plus
invocation for a given task is a parameter of the embedding. -/
inductive JobOutcome where
  | success (payload : Payload)
  | raised (msg : String)
  | unknownType
deriving DecidableEq, Repr

structure ResolveOutcome where
  task : Task
  db : List Task
  results : List ResultRow
deriving DecidableEq, Repr

/-- The dependency-resolution prefix of the unnamed variant's
`TaskRunner.run` (the `if (task.dependsOn) { ... }` block): not-found,
cycle, blocked and dependency-failed classification, ending with the
`taskRepository.save(task)` of that block. -/
def resolveDependencyV2 (db : List Task) (results : List ResultRow)
    (task : Task) : ResolveOutcome :=
  match task.dependsOn with
  | none => ⟨task, db, results⟩
  | some dep =>
    match findByStep db dep with
    | none =>
      let t := { task with status := TaskStatus.failed }
      ⟨t, saveTask db t,
        generateErrorResult results t
          ("Dependency \"" ++ toString dep ++ "\" task not found")⟩
    | some depTask =>
      if checkDependencyCycle db task.stepNumber then
        let t := { task with status := TaskStatus.failed }
        ⟨t, saveTask db t,
          generateErrorResult results t
            ("Cycle detected in dependencies of task " ++ toString task.taskId)⟩
      else
        let t1 :=
          if depTask.status = TaskStatus.inProgress ∨
              depTask.status = TaskStatus.queued ∨
              depTask.status = TaskStatus.blocked then
            { task with status := TaskStatus.blocked }
          else task
        if depTask.status = TaskStatus.failed then
          let t2 := { t1 with status := TaskStatus.failed }
          ⟨t2, saveTask db t2,
            generateErrorResult results t2
              ("This task can not be executed because its dependency \"" ++
                toString dep ++ "\" task failed.")⟩
        else
          ⟨t1, saveTask db t1, results⟩

/-- One failed task's contribution to the unnamed variant's failure summary:
`Task ${t.taskId} failed with ${taskResultData.output}. ` (skipped when no
result row exists for the task). -/
def failedLineV2 (results : List ResultRow) (t : Task) : String :=
  match results.find? (fun r => r.taskId == t.taskId) with
  | some r => "Task " ++ toString t.taskId ++ " failed with " ++ r.data.output ++ ". "
  | none => ""

/-- The body of the unblock loop: a `Blocked` task is set back to `Queued`,
any other task is left alone. -/
def unblockTask (t : Task) : Task :=
  if t.status == TaskStatus.blocked then
    { t with status := TaskStatus.queued }
  else t

/-- The workflow aggregation step of the unnamed variant's `run` (executed on
the freshly loaded workflow with its task snapshot): status from
`anyFailed`/`allCompleted`, `finalResult` only at the stable point
`total == completed + failed`, then the unblock pass.  Returns the updated
workflow row and the task snapshot after unblocking. -/
def recomputeV2 (ts : List Task) (results : List ResultRow) (w : Workflow) :
    Workflow × List Task :=
  let allCompleted := ts.all (fun t => t.status == TaskStatus.completed)
  let anyFailed := ts.any (fun t => t.status == TaskStatus.failed)
  let totalTasks := ts.length
  let totalBlocked := (ts.filter (fun t => t.status == TaskStatus.blocked)).length
  let totalCompleted := (ts.filter (fun t => t.status == TaskStatus.completed)).length
  let totalFailed := (ts.filter (fun t => t.status == TaskStatus.failed)).length
  let status :=
    if anyFailed then WorkflowStatus.failed
    else if allCompleted then WorkflowStatus.completed
    else WorkflowStatus.inProgress
  let finalResult :=
    if totalTasks = totalCompleted + totalFailed then
      if allCompleted then
        some ("Workflow finished with " ++ toString totalCompleted ++
          " task(s) completed.")
      else
        some ((ts.filter (fun t => t.status == TaskStatus.failed)).foldl
          (fun acc t => acc ++ failedLineV2 results t)
          ("Workflow finished with " ++ toString totalCompleted ++
            " task(s) completed and " ++ toString totalFailed ++
            " task(s) failed. "))
    else w.finalResult
  let ts1 :=
    if status = WorkflowStatus.inProgress ∧ 0 < totalBlocked ∧
        totalBlocked + totalCompleted + totalFailed = totalTasks then
      ts.map unblockTask
    else ts
  (⟨w.workflowId, status, finalResult⟩, ts1)

/-- One failed task's contribution to `taskRunner.ts`'s failure summary:
`` Task ${t.taskId} failed with ${taskResultData.output}.`` (leading space,
no trailing space). -/
def failedLineV1 (results : List ResultRow) (t : Task) : String :=
  match results.find? (fun r => r.taskId == t.taskId) with
  | some r => " Task " ++ toString t.taskId ++ " failed with " ++ r.data.output ++ "."
  | none => ""

/-- The workflow aggregation step of `src/workers/taskRunner.ts`'s `run`:
status starts at `InProgress` and becomes terminal only at the stable point
`total == completed + failed`, then the unblock pass. -/
def recomputeV1 (ts : List Task) (results : List ResultRow) (w : Workflow) :
    Workflow × List Task :=
  let allCompleted := ts.all (fun t => t.status == TaskStatus.completed)
  let totalTasks := ts.length
  let totalBlocked := (ts.filter (fun t => t.status == TaskStatus.blocked)).length
  let totalCompleted := (ts.filter (fun t => t.status == TaskStatus.completed)).length
  let totalFailed := (ts.filter (fun t => t.status == TaskStatus.failed)).length
  let stable := totalTasks = totalCompleted + totalFailed
  let status :=
    if stable then
      if allCompleted then WorkflowStatus.completed else WorkflowStatus.failed
    else WorkflowStatus.inProgress
  let finalResult :=
    if stable then
      if allCompleted then
        some ("Workflow finished with " ++ toString totalCompleted ++
          " task(s) completed.")
      else
        some ((ts.filter (fun t => t.status == TaskStatus.failed)).foldl
          (fun acc t => acc ++ failedLineV1 results t)
          ("Workflow finished with " ++ toString totalCompleted ++
            " task(s) completed and " ++ toString totalFailed ++
            " task(s) failed. Errors: "))
    else w.finalResult
  let ts1 :=
    if status = WorkflowStatus.inProgress ∧ 0 < totalBlocked ∧
        totalBlocked + totalCompleted + totalFailed = totalTasks then
      ts.map unblockTask
    else ts
  (⟨w.workflowId, status, finalResult⟩, ts1)

/-- Observable outcome of one `TaskRunner.run` call: the final in-memory
task, the task table, the result table, whether `job.run` was invoked,
whether the task was ever written as `InProgress`, the error (if any) that
escaped `run`, and the updated workflow row (written only when `run`
reaches the aggregation step and finds the workflow). -/
structure RunResult where
  task : Task
  db : List Task
  results : List ResultRow
  jobInvoked : Bool
  enteredInProgress : Bool
  thrown : Option String
  workflow : Option Workflow
deriving DecidableEq, Repr

/-- The job-execution stage of the unnamed variant's `run` (the
`if (task.status !== Blocked && task.status !== Failed)` block):
the task is saved `InProgress` with `progress = "starting job..."`, then
`getJobForTaskType` is called — after that save and outside the `try`, so an
unknown task type escapes `run` with the task row left `InProgress`; a
raised job error is caught, the task saved `Failed` with `progress`
cleared, no result row written, and the error rethrown; on success a result
row is persisted and the task saved `Completed` with `resultId` set and
`progress` cleared.  `workflow` stays `none`: the aggregation step follows
separately. -/
def jobStageV2 (behavior : Task → JobOutcome) (r : ResolveOutcome) :
    RunResult :=
  if r.task.status ≠ TaskStatus.blocked ∧ r.task.status ≠ TaskStatus.failed then
    let t1 := { r.task with
      status := TaskStatus.inProgress, progress := some "starting job..." }
    let db1 := saveTask r.db t1
    match behavior t1 with
    | JobOutcome.unknownType =>
      ⟨t1, db1, r.results, false, true, some "UnknownJobType", none⟩
    | JobOutcome.raised msg =>
      let t2 := { t1 with status := TaskStatus.failed, progress := none }
      ⟨t2, saveTask db1 t2, r.results, true, true, some msg, none⟩
    | JobOutcome.success payload =>
      let row : ResultRow := ⟨r.results.length, t1.taskId, payload⟩
      let t2 := { t1 with
        resultId := some (row.resultId),
        status := TaskStatus.completed, progress := none }
      ⟨t2, saveTask db1 t2, r.results ++ [row], true, true, none, none⟩
  else
    ⟨r.task, r.db, r.results, false, false, none, none⟩

/-- The workflow aggregation stage at the end of the unnamed variant's
`run`: reached only when no error escaped the job stage; loads the task's
workflow with its current task snapshot, recomputes it and writes back the
unblocked tasks and the workflow row. -/
def aggregateStageV2 (w : Workflow) (wid : Nat) (a : RunResult) : RunResult :=
  match a.thrown with
  | some _ => a
  | none =>
    if w.workflowId == wid then
      let snapshot := a.db.filter (fun u => u.workflowId == w.workflowId)
      let p := recomputeV2 snapshot a.results w
      ⟨a.task, p.2.foldl saveTask a.db, a.results,
        a.jobInvoked, a.enteredInProgress, none, some p.1⟩
    else a

/-- The unnamed variant's `TaskRunner.run`: dependency resolution, job
execution, workflow aggregation. -/
def runV2 (db0 : List Task) (results0 : List ResultRow) (w : Workflow)
    (behavior : Task → JobOutcome) (task0 : Task) : RunResult :=
  aggregateStageV2 w task0.workflowId
    (jobStageV2 behavior (resolveDependencyV2 db0 results0 task0))

/-! ### Concrete instances used by witnesses, counterexamples and scenarios -/

def demoWorkflow : Workflow := ⟨1, WorkflowStatus.inProgress, none⟩

/-- A job that always succeeds with output "42". -/
def demoJobOk : Task → JobOutcome := fun _ => JobOutcome.success ⟨"42", false⟩

/-- Step 1, already `Completed`. -/
def demoDepDone : Task := ⟨1, 1, 1, "taskA", none, TaskStatus.completed, none, none⟩

/-- Step 2, depends on step 1, `Queued`. -/
def demoTaskTwo : Task := ⟨2, 1, 2, "taskA", some 1, TaskStatus.queued, none, none⟩

/-- Step 2 depending on a step number that exists in no task. -/
def demoTaskNoDep : Task := ⟨2, 1, 2, "taskA", some 9, TaskStatus.queued, none, none⟩

/-- Scenario 3 of the spec: step 1 depends on step 3 and step 3 depends on
step 1 (direct 2-cycle); step 2 is independent. -/
def cycleTaskOne : Task := ⟨1, 1, 1, "taskA", some 3, TaskStatus.queued, none, none⟩

def cycleTaskMid : Task := ⟨2, 1, 2, "taskA", none, TaskStatus.queued, none, none⟩

def cycleTaskThree : Task := ⟨3, 1, 3, "taskA", some 1, TaskStatus.queued, none, none⟩

def cycleTable : List Task := [cycleTaskOne, cycleTaskMid, cycleTaskThree]

/-- A task with no dependency whose job raises. -/
def raiseTask : Task := ⟨1, 1, 1, "taskA", none, TaskStatus.queued, none, none⟩

def raiseJob : Task → JobOutcome := fun _ => JobOutcome.raised "boom"

/-- A task whose type has no registered job. -/
def unknownTask : Task := ⟨1, 1, 1, "unregistered", none, TaskStatus.queued, none, none⟩

def unknownJob : Task → JobOutcome := fun _ => JobOutcome.unknownType

/-- A `polygonArea` task whose geoJson is invalid: the unnamed
`PolygonAreaJob` returns normally with
`{output: "Invalid geometry type: ...", error: true}`. -/
def polygonTask : Task := ⟨1, 1, 1, "polygonArea", none, TaskStatus.queued, none, none⟩

def polygonJobInvalidGeometry : Task → JobOutcome := fun _ =>
  JobOutcome.success
    ⟨"Invalid geometry type: Point. Expected Polygon or MultiPolygon.", true⟩

/-- Two workflows sharing step numbers: workflow 1 owns a `Failed` task with
`stepNumber` 1; workflow 2 owns a `Completed` task with `stepNumber` 1 and a
`Queued` task with `stepNumber` 2 that depends on step 1. -/
def crossTaskA : Task := ⟨1, 1, 1, "taskA", none, TaskStatus.failed, none, none⟩

def crossTaskB1 : Task := ⟨2, 2, 1, "taskA", none, TaskStatus.completed, none, none⟩

def crossTaskB2 : Task := ⟨3, 2, 2, "taskA", some 1, TaskStatus.queued, none, none⟩

def crossTable : List Task := [crossTaskA, crossTaskB1, crossTaskB2]

def crossWorkflowB : Workflow := ⟨2, WorkflowStatus.inProgress, none⟩

/-- Concatenation of per-failed-task summary lines, in task order. -/
def concatLines (g : Task → String) : List Task → String
  | [] => ""
  | t :: l => g t ++ concatLines g l

/-- A `Failed` step 1 next to a still-`Queued` step 2 (same workflow): the
stable point is not yet reached. -/
def eagerFailedTask : Task := ⟨1, 1, 1, "taskA", none, TaskStatus.failed, none, none⟩

def eagerQueuedTask : Task := ⟨2, 1, 2, "taskA", none, TaskStatus.queued, none, none⟩

/-- A `Completed` step 1 next to a `Blocked` step 2 (same workflow): every
non-terminal task is blocked. -/
def unblockDoneTask : Task := ⟨1, 1, 1, "taskA", none, TaskStatus.completed, none, none⟩

def unblockBlockedTask : Task :=
  ⟨2, 1, 2, "taskA", some 1, TaskStatus.blocked, none, none⟩

/-! ### Helper lemmas -/

/-- Number of tasks of a snapshot having a given status (the
`tasks.filter(t => t.status === s).length` counters of the aggregation
step). -/
def countByStatus (ts : List Task) (s : TaskStatus) : Nat :=
  (ts.filter (fun t => t.status == s)).length

theorem count_le_length (ts : List Task) (s : TaskStatus) :
    countByStatus ts s ≤ ts.length :=
  List.length_filter_le _ _

theorem length_eq_sum_counts (ts : List Task) :
    ts.length =
      countByStatus ts TaskStatus.queued + countByStatus ts TaskStatus.inProgress +
      countByStatus ts TaskStatus.completed + countByStatus ts TaskStatus.failed +
      countByStatus ts TaskStatus.blocked := by
  induction ts with
  | nil => rfl
  | cons t ts ih =>
    cases h : t.status <;>
      simp only [countByStatus, List.filter_cons, h, List.length_cons] at ih ⊢ <;>
      simp <;> omega

theorem countByStatus_pos_iff (ts : List Task) (s : TaskStatus) :
    0 < countByStatus ts s ↔ ∃ t ∈ ts, t.status = s := by
  simp [countByStatus, List.length_pos_iff_exists_mem, List.mem_filter]

theorem any_failed_iff (ts : List Task) :
    (ts.any (fun t => t.status == TaskStatus.failed) = true) ↔
      0 < countByStatus ts TaskStatus.failed := by
  rw [countByStatus_pos_iff, List.any_eq_true]
  simp

theorem all_completed_iff (ts : List Task) :
    (ts.all (fun t => t.status == TaskStatus.completed) = true) ↔
      countByStatus ts TaskStatus.completed = ts.length := by
  induction ts with
  | nil => simp [countByStatus]
  | cons t ts ih =>
    have hle := count_le_length ts TaskStatus.completed
    simp only [countByStatus] at ih hle ⊢
    cases h : t.status <;>
      simp only [List.filter_cons, h, List.all_cons, List.length_cons] <;>
      simp [ih] <;> omega

theorem count_eq_zero_of_all_completed (ts : List Task) (s : TaskStatus)
    (hs : s ≠ TaskStatus.completed)
    (h : ts.all (fun t => t.status == TaskStatus.completed) = true) :
    countByStatus ts s = 0 := by
  simp only [countByStatus, List.length_eq_zero, List.filter_eq_nil_iff]
  intro t ht
  have := (List.all_eq_true.mp h) t ht
  simp only [beq_iff_eq] at this ⊢
  rw [this]
  exact fun hc => hs hc.symm

theorem aggregateStageV2_preserve (w : Workflow) (wid : Nat) (a : RunResult) :
    (aggregateStageV2 w wid a).task = a.task ∧
    (aggregateStageV2 w wid a).results = a.results ∧
    (aggregateStageV2 w wid a).jobInvoked = a.jobInvoked ∧
    (aggregateStageV2 w wid a).enteredInProgress = a.enteredInProgress := by
  obtain ⟨t, db, res, ji, ip, th, wf⟩ := a
  cases th with
  | none =>
    simp only [aggregateStageV2]
    split <;> simp
  | some msg => simp [aggregateStageV2]

theorem resolveDependencyV2_no_dep (db : List Task) (results : List ResultRow)
    (task : Task) (h : task.dependsOn = none) :
    resolveDependencyV2 db results task = ⟨task, db, results⟩ := by
  simp [resolveDependencyV2, h]

theorem resolveDependencyV2_not_found (db : List Task) (results : List ResultRow)
    (task : Task) (d : Nat) (h1 : task.dependsOn = some d)
    (h2 : findByStep db d = none) :
    resolveDependencyV2 db results task =
      ⟨{ task with status := TaskStatus.failed },
        saveTask db { task with status := TaskStatus.failed },
        generateErrorResult results { task with status := TaskStatus.failed }
          ("Dependency \"" ++ toString d ++ "\" task not found")⟩ := by
  simp [resolveDependencyV2, h1, h2]

theorem resolveDependencyV2_cycle (db : List Task) (results : List ResultRow)
    (task : Task) (d : Nat) (depTask : Task) (h1 : task.dependsOn = some d)
    (h2 : findByStep db d = some depTask)
    (h3 : checkDependencyCycle db task.stepNumber = true) :
    resolveDependencyV2 db results task =
      ⟨{ task with status := TaskStatus.failed },
        saveTask db { task with status := TaskStatus.failed },
        generateErrorResult results { task with status := TaskStatus.failed }
          ("Cycle detected in dependencies of task " ++ toString (task.taskId))⟩ := by
  simp [resolveDependencyV2, h1, h2, h3]

theorem resolveDependencyV2_dep_waiting (db : List Task) (results : List ResultRow)
    (task : Task) (d : Nat) (depTask : Task) (h1 : task.dependsOn = some d)
    (h2 : findByStep db d = some depTask)
    (h3 : checkDependencyCycle db task.stepNumber = false)
    (hst : depTask.status = TaskStatus.queued ∨ depTask.status = TaskStatus.inProgress ∨
      depTask.status = TaskStatus.blocked) :
    resolveDependencyV2 db results task =
      ⟨{ task with status := TaskStatus.blocked },
        saveTask db { task with status := TaskStatus.blocked }, results⟩ := by
  rcases hst with h | h | h <;> simp [resolveDependencyV2, h1, h2, h3, h]

theorem resolveDependencyV2_dep_failed (db : List Task) (results : List ResultRow)
    (task : Task) (d : Nat) (depTask : Task) (h1 : task.dependsOn = some d)
    (h2 : findByStep db d = some depTask)
    (h3 : checkDependencyCycle db task.stepNumber = false)
    (hst : depTask.status = TaskStatus.failed) :
    resolveDependencyV2 db results task =
      ⟨{ task with status := TaskStatus.failed },
        saveTask db { task with status := TaskStatus.failed },
        generateErrorResult results { task with status := TaskStatus.failed }
          ("This task can not be executed because its dependency \"" ++
            toString d ++ "\" task failed.")⟩ := by
  simp [resolveDependencyV2, h1, h2, h3, hst]

theorem resolveDependencyV2_dep_completed (db : List Task) (results : List ResultRow)
    (task : Task) (d : Nat) (depTask : Task) (h1 : task.dependsOn = some d)
    (h2 : findByStep db d = some depTask)
    (h3 : checkDependencyCycle db task.stepNumber = false)
    (hst : depTask.status = TaskStatus.completed) :
    resolveDependencyV2 db results task = ⟨task, saveTask db task, results⟩ := by
  simp [resolveDependencyV2, h1, h2, h3, hst]

theorem jobStageV2_skip (behavior : Task → JobOutcome) (r : ResolveOutcome)
    (h : r.task.status = TaskStatus.blocked ∨ r.task.status = TaskStatus.failed) :
    jobStageV2 behavior r = ⟨r.task, r.db, r.results, false, false, none, none⟩ := by
  rcases h with h | h <;> simp [jobStageV2, h]

theorem jobStageV2_runnable (behavior : Task → JobOutcome) (r : ResolveOutcome)
    (h : r.task.status = TaskStatus.queued)
    (h5 : ∀ t, behavior t ≠ JobOutcome.unknownType) :
    (jobStageV2 behavior r).jobInvoked = true ∧
    (jobStageV2 behavior r).enteredInProgress = true := by
  simp only [jobStageV2, h]
  rw [if_pos (by simp)]
  split
  · rename_i heq
    exact absurd heq (h5 _)
  · simp
  · simp

/-- C1: for a task whose `dependsOn` resolves to an existing task and whose
dependency chain has no cycle, `run` classifies by the dependency's status:
`Completed` → the job is invoked; `Queued`/`InProgress`/`Blocked` → the task
is set `Blocked`, no job is invoked and no result row is written; `Failed` →
the task is set `Failed` with an error result whose output mentions the
dependency failure, and no job is invoked. -/
theorem run_classifies_by_dependency_status
    (db0 : List Task) (results0 : List ResultRow) (w : Workflow)
    (behavior : Task → JobOutcome) (task0 : Task) (d : Nat) (depTask : Task)
    (h1 : task0.dependsOn = some d)
    (h2 : findByStep db0 d = some depTask)
    (h3 : checkDependencyCycle db0 task0.stepNumber = false)
    (h4 : task0.status = TaskStatus.queued)
    (h5 : ∀ t, behavior t ≠ JobOutcome.unknownType) :
    (depTask.status = TaskStatus.completed →
      (runV2 db0 results0 w behavior task0).jobInvoked = true) ∧
    ((depTask.status = TaskStatus.queued ∨ depTask.status = TaskStatus.inProgress ∨
        depTask.status = TaskStatus.blocked) →
      (runV2 db0 results0 w behavior task0).task.status = TaskStatus.blocked ∧
      (runV2 db0 results0 w behavior task0).jobInvoked = false ∧
      (runV2 db0 results0 w behavior task0).results = results0) ∧
    (depTask.status = TaskStatus.failed →
      (runV2 db0 results0 w behavior task0).task.status = TaskStatus.failed ∧
      (runV2 db0 results0 w behavior task0).jobInvoked = false ∧
      (runV2 db0 results0 w behavior task0).results =
        results0 ++ [⟨results0.length, task0.taskId,
          ⟨"This task can not be executed because its dependency \"" ++
            toString d ++ "\" task failed.", true⟩⟩]) := by
  obtain ⟨hT, hR, hJ, hP⟩ := aggregateStageV2_preserve w task0.workflowId
    (jobStageV2 behavior (resolveDependencyV2 db0 results0 task0))
  simp only [runV2]
  refine ⟨?_, ?_, ?_⟩
  · intro hst
    rw [hJ, resolveDependencyV2_dep_completed db0 results0 task0 d depTask h1 h2 h3 hst]
    exact (jobStageV2_runnable behavior ⟨task0, saveTask db0 task0, results0⟩ h4 h5).1
  · intro hst
    rw [hT, hJ, hR,
      resolveDependencyV2_dep_waiting db0 results0 task0 d depTask h1 h2 h3 hst,
      jobStageV2_skip behavior _ (Or.inl rfl)]
    exact ⟨rfl, rfl, rfl⟩
  · intro hst
    rw [hT, hJ, hR,
      resolveDependencyV2_dep_failed db0 results0 task0 d depTask h1 h2 h3 hst,
      jobStageV2_skip behavior _ (Or.inr rfl)]
    simp [generateErrorResult]

theorem run_classifies_by_dependency_status_witness :
    (runV2 [demoDepDone, demoTaskTwo] [] demoWorkflow demoJobOk
      demoTaskTwo).jobInvoked = true :=
  (run_classifies_by_dependency_status [demoDepDone, demoTaskTwo] [] demoWorkflow
    demoJobOk demoTaskTwo 1 demoDepDone rfl rfl (by decide) rfl
    (fun t => by simp [demoJobOk])).1 rfl

/-- C6: a task whose `dependsOn` references a step number for which no task
can be found is auto-failed: status `Failed`, an error result whose output
states the dependency task was not found, and the job is never invoked. -/
theorem run_dependency_not_found_autofails
    (db0 : List Task) (results0 : List ResultRow) (w : Workflow)
    (behavior : Task → JobOutcome) (task0 : Task) (d : Nat)
    (h1 : task0.dependsOn = some d)
    (h2 : findByStep db0 d = none) :
    (runV2 db0 results0 w behavior task0).task.status = TaskStatus.failed ∧
    (runV2 db0 results0 w behavior task0).jobInvoked = false ∧
    (runV2 db0 results0 w behavior task0).enteredInProgress = false ∧
    (runV2 db0 results0 w behavior task0).results =
      results0 ++ [⟨results0.length, task0.taskId,
        ⟨"Dependency \"" ++ toString d ++ "\" task not found", true⟩⟩] := by
  obtain ⟨hT, hR, hJ, hP⟩ := aggregateStageV2_preserve w task0.workflowId
    (jobStageV2 behavior (resolveDependencyV2 db0 results0 task0))
  simp only [runV2]
  rw [hT, hJ, hR, hP,
    resolveDependencyV2_not_found db0 results0 task0 d h1 h2,
    jobStageV2_skip behavior _ (Or.inr rfl)]
  simp [generateErrorResult]

theorem run_dependency_not_found_autofails_witness :
    (runV2 [demoTaskNoDep] [] demoWorkflow demoJobOk
      demoTaskNoDep).task.status = TaskStatus.failed :=
  (run_dependency_not_found_autofails [demoTaskNoDep] [] demoWorkflow demoJobOk
    demoTaskNoDep 9 rfl rfl).1

theorem filter_visited_mono (l visited : List Nat) (step : Nat) :
    (l.filter (fun s => decide (s ∉ step :: visited))).length ≤
      (l.filter (fun s => decide (s ∉ visited))).length := by
  refine List.Sublist.length_le (List.monotone_filter_right l ?_)
  intro a ha
  simp only [decide_eq_true_eq] at ha ⊢
  exact fun hmem => ha (List.mem_cons_of_mem _ hmem)

theorem filter_visited_lt (l : List Nat) (visited : List Nat) (step : Nat)
    (hl : step ∈ l) (hv : step ∉ visited) :
    (l.filter (fun s => decide (s ∉ step :: visited))).length <
      (l.filter (fun s => decide (s ∉ visited))).length := by
  induction l with
  | nil => simp at hl
  | cons a l ih =>
    by_cases ha : a = step
    · subst ha
      rw [List.filter_cons_of_neg (by simp), List.filter_cons_of_pos (by simp [hv])]
      exact Nat.lt_succ_of_le (filter_visited_mono l visited a)
    · have hmem : step ∈ l := by
        rcases List.mem_cons.mp hl with h | h
        · exact absurd h.symm ha
        · exact h
      by_cases hav : a ∈ visited
      · rw [List.filter_cons_of_neg (by simp [hav]),
          List.filter_cons_of_neg (by simp [hav])]
        exact ih hmem
      · rw [List.filter_cons_of_pos (by simp [ha, hav]),
          List.filter_cons_of_pos (by simp [hav])]
        simpa using ih hmem

/-- Each recursive call of the cycle check adds one table step number to the
visited set, so the count of table step numbers outside `visited` bounds the
recursion depth. -/
theorem checkDependencyCycleFuel_ne_none (table : List Task) :
    ∀ (fuel : Nat) (step : Nat) (visited : List Nat),
      ((table.map Task.stepNumber).filter
        (fun s => decide (s ∉ visited))).length < fuel →
      checkDependencyCycleFuel table fuel step visited ≠ none := by
  intro fuel
  induction fuel with
  | zero => intro step visited h; omega
  | succ n ih =>
    intro step visited h
    simp only [checkDependencyCycleFuel]
    by_cases hvis : step ∈ visited
    · simp [hvis]
    · rw [if_neg hvis]
      cases hf : findByStep table step with
      | none => simp [hf]
      | some currentTask =>
        cases hd : currentTask.dependsOn with
        | none => simp [hf, hd]
        | some dep =>
          cases hg : findByStep table dep with
          | none => simp [hf, hd, hg]
          | some depTask =>
            simp only [hf, hd, hg]
            refine ih depTask.stepNumber (step :: visited) ?_
            have hf' : table.find? (fun t => t.stepNumber == step) =
                some currentTask := hf
            have hstep : currentTask.stepNumber = step := by
              have := List.find?_some hf'
              simpa using this
            have hmem : step ∈ table.map Task.stepNumber :=
              List.mem_map.mpr ⟨currentTask, List.mem_of_find?_eq_some hf', hstep⟩
            have hlt := filter_visited_lt (table.map Task.stepNumber) visited step
              hmem hvis
            omega

/-- C5: cycle detection terminates within `N` hops (`N` = number of tasks in
the table): fuel `table.length + 1` never runs out, so the recursion tracking
visited step numbers answers on every input; and on the direct 2-cycle of
Scenario 3 both cyclic tasks are auto-failed by `run` — status `Failed`, an
error result mentioning the cycle — with no job invocation and without ever
being written `InProgress`. -/
theorem cycle_detection_terminates_and_autofails :
    (∀ (table : List Task) (step : Nat),
      (checkDependencyCycleFuel table (table.length + 1) step []).isSome = true) ∧
    checkDependencyCycle cycleTable 1 = true ∧
    checkDependencyCycle cycleTable 3 = true ∧
    ((runV2 cycleTable [] demoWorkflow demoJobOk cycleTaskOne).task.status =
        TaskStatus.failed ∧
      (runV2 cycleTable [] demoWorkflow demoJobOk cycleTaskOne).jobInvoked = false ∧
      (runV2 cycleTable [] demoWorkflow demoJobOk
        cycleTaskOne).enteredInProgress = false ∧
      (runV2 cycleTable [] demoWorkflow demoJobOk cycleTaskOne).results =
        [⟨0, 1, ⟨"Cycle detected in dependencies of task 1", true⟩⟩]) ∧
    ((runV2 cycleTable [] demoWorkflow demoJobOk cycleTaskThree).task.status =
        TaskStatus.failed ∧
      (runV2 cycleTable [] demoWorkflow demoJobOk cycleTaskThree).jobInvoked = false ∧
      (runV2 cycleTable [] demoWorkflow demoJobOk
        cycleTaskThree).enteredInProgress = false ∧
      (runV2 cycleTable [] demoWorkflow demoJobOk cycleTaskThree).results =
        [⟨0, 3, ⟨"Cycle detected in dependencies of task 3", true⟩⟩]) := by
  refine ⟨?_, by decide, by decide, by decide, by decide⟩
  intro table step
  rw [Option.isSome_iff_ne_none]
  refine checkDependencyCycleFuel_ne_none table (table.length + 1) step [] ?_
  calc ((table.map Task.stepNumber).filter (fun s => decide (s ∉ ([] : List Nat)))).length
      ≤ (table.map Task.stepNumber).length := List.length_filter_le _ _
    _ = table.length := List.length_map _ _
    _ < table.length + 1 := Nat.lt_succ_self _

/-- C3 counterexample: when the invoked job raises, `run` persists no result
row at all, the error escapes `run`, and the aggregation step is never
reached — contrary to the claim that a failure result is persisted, nothing
but `StoreError` escapes, and the aggregator is still called. -/
theorem run_job_raise_counterexample :
    (runV2 [raiseTask] [] demoWorkflow raiseJob raiseTask).results = [] ∧
    (runV2 [raiseTask] [] demoWorkflow raiseJob raiseTask).thrown = some "boom" ∧
    (runV2 [raiseTask] [] demoWorkflow raiseJob raiseTask).workflow = none := by
  decide

/-- C3 amended: on a job-raised error, `run` sets the task `Failed` and
clears `progress` (and saves the task), but persists no result row, rethrows
the error past the executor boundary, and does not call the workflow
aggregation step for this invocation. -/
theorem run_job_raise_amended
    (db0 : List Task) (results0 : List ResultRow) (w : Workflow)
    (behavior : Task → JobOutcome) (task0 : Task) (msg : String)
    (h1 : task0.dependsOn = none)
    (h4 : task0.status = TaskStatus.queued)
    (h5 : ∀ t, behavior t = JobOutcome.raised msg) :
    (runV2 db0 results0 w behavior task0).task.status = TaskStatus.failed ∧
    (runV2 db0 results0 w behavior task0).task.progress = none ∧
    (runV2 db0 results0 w behavior task0).results = results0 ∧
    (runV2 db0 results0 w behavior task0).thrown = some msg ∧
    (runV2 db0 results0 w behavior task0).workflow = none := by
  simp only [runV2, resolveDependencyV2_no_dep db0 results0 task0 h1]
  simp only [jobStageV2, h4]
  rw [if_pos (by simp)]
  rw [h5]
  simp [aggregateStageV2]

theorem run_job_raise_amended_witness :
    (runV2 [raiseTask] [] demoWorkflow raiseJob raiseTask).task.status =
      TaskStatus.failed :=
  (run_job_raise_amended [raiseTask] [] demoWorkflow raiseJob raiseTask "boom"
    rfl rfl (fun _ => rfl)).1

/-- C9 counterexample: with no job registered for the task type, the lookup
error escapes `run` and the task is left `InProgress` — it does not end in
status `Failed`. -/
theorem run_unknown_type_counterexample :
    (runV2 [unknownTask] [] demoWorkflow unknownJob unknownTask).task.status =
      TaskStatus.inProgress ∧
    decide ((runV2 [unknownTask] [] demoWorkflow unknownJob
      unknownTask).task.status = TaskStatus.failed) = false ∧
    (runV2 [unknownTask] [] demoWorkflow unknownJob unknownTask).thrown =
      some "UnknownJobType" := by
  decide

/-- C9 amended: when no job is registered for the task's type, the
`getJobForTaskType` error propagates out of `run` (it is raised after the
`InProgress` save and outside the `try`), leaving the task `InProgress`
with `progress = "starting job..."`; no job runs, no result row and no
`Failed` status are written, and the aggregation step is skipped. -/
theorem run_unknown_type_amended
    (db0 : List Task) (results0 : List ResultRow) (w : Workflow)
    (behavior : Task → JobOutcome) (task0 : Task)
    (h1 : task0.dependsOn = none)
    (h4 : task0.status = TaskStatus.queued)
    (h5 : ∀ t, behavior t = JobOutcome.unknownType) :
    (runV2 db0 results0 w behavior task0).task.status = TaskStatus.inProgress ∧
    (runV2 db0 results0 w behavior task0).task.progress =
      some "starting job..." ∧
    (runV2 db0 results0 w behavior task0).jobInvoked = false ∧
    (runV2 db0 results0 w behavior task0).results = results0 ∧
    (runV2 db0 results0 w behavior task0).thrown = some "UnknownJobType" ∧
    (runV2 db0 results0 w behavior task0).workflow = none := by
  simp only [runV2, resolveDependencyV2_no_dep db0 results0 task0 h1]
  simp only [jobStageV2, h4]
  rw [if_pos (by simp)]
  rw [h5]
  simp [aggregateStageV2]

theorem run_unknown_type_amended_witness :
    (runV2 [unknownTask] [] demoWorkflow unknownJob unknownTask).task.status =
      TaskStatus.inProgress :=
  (run_unknown_type_amended [unknownTask] [] demoWorkflow unknownJob unknownTask
    rfl rfl (fun _ => rfl)).1

/-- C4: evaluating `run` on a job that returns normally with a payload
discriminated as an error (`{error: true}`, exactly what the unnamed
`PolygonAreaJob` returns for invalid geometry): the success path never
inspects the payload, so the task is marked `Completed` — not `Failed` —
the error payload is stored in the result row, and the workflow finishes
`Completed`. -/
theorem run_error_payload_marks_completed :
    (runV2 [polygonTask] [] demoWorkflow polygonJobInvalidGeometry
      polygonTask).task.status = TaskStatus.completed ∧
    (runV2 [polygonTask] [] demoWorkflow polygonJobInvalidGeometry
      polygonTask).results =
      [⟨0, 1, ⟨"Invalid geometry type: Point. Expected Polygon or MultiPolygon.",
        true⟩⟩] ∧
    (runV2 [polygonTask] [] demoWorkflow polygonJobInvalidGeometry
      polygonTask).workflow =
      some ⟨1, WorkflowStatus.completed,
        some "Workflow finished with 1 task(s) completed."⟩ := by
  decide

/-- C10: every dependency lookup (`findByStep`, used by `run`'s resolver,
by each hop of `checkDependencyCycle`, and — identically — by the workflow
factory's dependency linking) searches the whole task table by `stepNumber`
with no workflow filter: resolving workflow 2's step-2 task, whose
`dependsOn = 1`, consults workflow 1's `Failed` task with `stepNumber` 1 and
auto-fails, even though workflow 2's own step-1 task is `Completed`. -/
theorem dependency_lookup_crosses_workflows :
    (findByStep crossTable 1 = some crossTaskA ∧ crossTaskA.workflowId = 1 ∧
      crossTaskB2.workflowId = 2) ∧
    (∃ t ∈ crossTable, t.workflowId = 2 ∧ t.stepNumber = 1 ∧
      t.status = TaskStatus.completed) ∧
    (runV2 crossTable [] crossWorkflowB demoJobOk crossTaskB2).task.status =
      TaskStatus.failed ∧
    (runV2 crossTable [] crossWorkflowB demoJobOk crossTaskB2).results =
      [⟨0, 3, ⟨"This task can not be executed because its dependency \"1\" task failed.",
        true⟩⟩] := by
  refine ⟨⟨by decide, rfl, rfl⟩, ⟨crossTaskB1, by decide, rfl, rfl, rfl⟩, by decide, by decide⟩

theorem foldl_append_concatLines (g : Task → String) (l : List Task) :
    ∀ init : String,
      l.foldl (fun acc t => acc ++ g t) init = init ++ concatLines g l := by
  induction l with
  | nil => intro init; simp [concatLines]
  | cons t l ih =>
    intro init
    simp only [List.foldl_cons, concatLines]
    rw [ih, String.append_assoc]

theorem recomputeV1_all_completed (ts : List Task) (results : List ResultRow)
    (w : Workflow) (h : ts.all (fun t => t.status == TaskStatus.completed) = true) :
    recomputeV1 ts results w =
      (⟨w.workflowId, WorkflowStatus.completed,
        some ("Workflow finished with " ++ toString ts.length ++
          " task(s) completed.")⟩, ts) := by
  have hcc := (all_completed_iff ts).mp h
  have hcf := count_eq_zero_of_all_completed ts TaskStatus.failed (by decide) h
  simp only [countByStatus] at hcc hcf
  simp only [recomputeV1, h, hcc, hcf]
  simp

theorem recomputeV1_stable_failed (ts : List Task) (results : List ResultRow)
    (w : Workflow)
    (hstable : countByStatus ts TaskStatus.completed +
      countByStatus ts TaskStatus.failed = ts.length)
    (hpos : 0 < countByStatus ts TaskStatus.failed) :
    recomputeV1 ts results w =
      (⟨w.workflowId, WorkflowStatus.failed,
        some (("Workflow finished with " ++
          toString (countByStatus ts TaskStatus.completed) ++
          " task(s) completed and " ++
          toString (countByStatus ts TaskStatus.failed) ++
          " task(s) failed. Errors: ") ++
          concatLines (failedLineV1 results)
            (ts.filter (fun t => t.status == TaskStatus.failed)))⟩, ts) := by
  obtain ⟨t, ht, hts⟩ := (countByStatus_pos_iff ts TaskStatus.failed).mp hpos
  have hall : ts.all (fun t => t.status == TaskStatus.completed) = false := by
    rw [Bool.eq_false_iff]
    intro hc
    have := List.all_eq_true.mp hc t ht
    simp [hts] at this
  simp only [countByStatus] at hstable ⊢
  have hstable2 : ts.length =
      (ts.filter (fun t => t.status == TaskStatus.completed)).length +
      (ts.filter (fun t => t.status == TaskStatus.failed)).length := hstable.symm
  simp only [recomputeV1, hall]
  rw [if_pos hstable2, if_pos hstable2]
  simp [foldl_append_concatLines]

theorem recomputeV1_not_stable (ts : List Task) (results : List ResultRow)
    (w : Workflow)
    (hlt : countByStatus ts TaskStatus.completed +
      countByStatus ts TaskStatus.failed < ts.length) :
    (recomputeV1 ts results w).1 =
      ⟨w.workflowId, WorkflowStatus.inProgress, w.finalResult⟩ := by
  simp only [countByStatus] at hlt
  simp only [recomputeV1]
  rw [if_neg (by omega), if_neg (by omega)]

theorem recomputeV2_all_completed (ts : List Task) (results : List ResultRow)
    (w : Workflow) (h : ts.all (fun t => t.status == TaskStatus.completed) = true) :
    recomputeV2 ts results w =
      (⟨w.workflowId, WorkflowStatus.completed,
        some ("Workflow finished with " ++ toString ts.length ++
          " task(s) completed.")⟩, ts) := by
  have hcc := (all_completed_iff ts).mp h
  have hcf := count_eq_zero_of_all_completed ts TaskStatus.failed (by decide) h
  have hany : ts.any (fun t => t.status == TaskStatus.failed) = false := by
    rw [Bool.eq_false_iff]
    intro hc
    have := (any_failed_iff ts).mp hc
    omega
  simp only [countByStatus] at hcc hcf
  simp only [recomputeV2, h, hany, hcc, hcf]
  simp

theorem recomputeV2_any_failed_status (ts : List Task) (results : List ResultRow)
    (w : Workflow) (hpos : 0 < countByStatus ts TaskStatus.failed) :
    (recomputeV2 ts results w).1.status = WorkflowStatus.failed := by
  have hany : ts.any (fun t => t.status == TaskStatus.failed) = true :=
    (any_failed_iff ts).mpr hpos
  simp [recomputeV2, hany]

theorem recomputeV2_stable_failed_finalResult (ts : List Task)
    (results : List ResultRow) (w : Workflow)
    (hstable : countByStatus ts TaskStatus.completed +
      countByStatus ts TaskStatus.failed = ts.length)
    (hpos : 0 < countByStatus ts TaskStatus.failed) :
    (recomputeV2 ts results w).1.finalResult =
      some (("Workflow finished with " ++
        toString (countByStatus ts TaskStatus.completed) ++
        " task(s) completed and " ++
        toString (countByStatus ts TaskStatus.failed) ++
        " task(s) failed. ") ++
        concatLines (failedLineV2 results)
          (ts.filter (fun t => t.status == TaskStatus.failed))) := by
  obtain ⟨t, ht, hts⟩ := (countByStatus_pos_iff ts TaskStatus.failed).mp hpos
  have hall : ts.all (fun t => t.status == TaskStatus.completed) = false := by
    rw [Bool.eq_false_iff]
    intro hc
    have := List.all_eq_true.mp hc t ht
    simp [hts] at this
  simp only [countByStatus] at hstable ⊢
  have hstable2 : ts.length =
      (ts.filter (fun t => t.status == TaskStatus.completed)).length +
      (ts.filter (fun t => t.status == TaskStatus.failed)).length := hstable.symm
  simp only [recomputeV2, hall]
  rw [if_pos hstable2]
  simp [foldl_append_concatLines]

theorem recomputeV2_quiet_inProgress (ts : List Task) (results : List ResultRow)
    (w : Workflow) (hcf : countByStatus ts TaskStatus.failed = 0)
    (hcc : countByStatus ts TaskStatus.completed < ts.length) :
    (recomputeV2 ts results w).1.status = WorkflowStatus.inProgress := by
  have hany : ts.any (fun t => t.status == TaskStatus.failed) = false := by
    rw [Bool.eq_false_iff]
    intro hc
    have := (any_failed_iff ts).mp hc
    omega
  have hall : ts.all (fun t => t.status == TaskStatus.completed) = false := by
    rw [Bool.eq_false_iff]
    intro hc
    have := (all_completed_iff ts).mp hc
    omega
  simp [recomputeV2, hany, hall]

theorem recomputeV2_unblocks (ts : List Task) (results : List ResultRow)
    (w : Workflow)
    (hst : (recomputeV2 ts results w).1.status = WorkflowStatus.inProgress)
    (hsum : countByStatus ts TaskStatus.blocked +
      countByStatus ts TaskStatus.completed +
      countByStatus ts TaskStatus.failed = ts.length) :
    (recomputeV2 ts results w).2 = ts.map unblockTask := by
  by_cases hany : ts.any (fun t => t.status == TaskStatus.failed) = true
  · simp [recomputeV2, hany] at hst
  · rw [Bool.not_eq_true] at hany
    by_cases hall : ts.all (fun t => t.status == TaskStatus.completed) = true
    · simp [recomputeV2, hany, hall] at hst
    · rw [Bool.not_eq_true] at hall
      have hcf : countByStatus ts TaskStatus.failed = 0 := by
        by_contra hc
        have h2 := (any_failed_iff ts).mpr (Nat.pos_of_ne_zero hc)
        rw [h2] at hany
        exact Bool.noConfusion hany
      have hcc : countByStatus ts TaskStatus.completed ≠ ts.length := by
        intro hc
        have h2 := (all_completed_iff ts).mpr hc
        rw [h2] at hall
        exact Bool.noConfusion hall
      have hccle := count_le_length ts TaskStatus.completed
      have hb : 0 < countByStatus ts TaskStatus.blocked := by omega
      simp only [countByStatus] at hb hsum
      simp [recomputeV2, hany, hall, hb, hsum]

theorem recomputeV2_no_unblock (ts : List Task) (results : List ResultRow)
    (w : Workflow)
    (hex : ∃ t ∈ ts, t.status = TaskStatus.queued ∨
      t.status = TaskStatus.inProgress) :
    (recomputeV2 ts results w).2 = ts := by
  have hsum := length_eq_sum_counts ts
  have hne : countByStatus ts TaskStatus.blocked +
      countByStatus ts TaskStatus.completed +
      countByStatus ts TaskStatus.failed ≠ ts.length := by
    obtain ⟨t, ht, hq | hip⟩ := hex
    · have := (countByStatus_pos_iff ts TaskStatus.queued).mpr ⟨t, ht, hq⟩
      omega
    · have := (countByStatus_pos_iff ts TaskStatus.inProgress).mpr ⟨t, ht, hip⟩
      omega
  simp only [countByStatus] at hne
  simp only [recomputeV2]
  rw [if_neg]
  rintro ⟨-, -, hc⟩
  exact hne hc

theorem recomputeV1_unblocks (ts : List Task) (results : List ResultRow)
    (w : Workflow)
    (hst : (recomputeV1 ts results w).1.status = WorkflowStatus.inProgress)
    (hsum : countByStatus ts TaskStatus.blocked +
      countByStatus ts TaskStatus.completed +
      countByStatus ts TaskStatus.failed = ts.length) :
    (recomputeV1 ts results w).2 = ts.map unblockTask := by
  by_cases hstable : ts.length =
      (ts.filter (fun t => t.status == TaskStatus.completed)).length +
      (ts.filter (fun t => t.status == TaskStatus.failed)).length
  · by_cases hall : ts.all (fun t => t.status == TaskStatus.completed) = true <;>
      simp [recomputeV1, hstable, hall] at hst
  · have hb : 0 < countByStatus ts TaskStatus.blocked := by
      simp only [countByStatus] at hsum ⊢
      omega
    simp only [countByStatus] at hb hsum
    simp [recomputeV1, hstable, hb, hsum]

theorem recomputeV1_no_unblock (ts : List Task) (results : List ResultRow)
    (w : Workflow)
    (hex : ∃ t ∈ ts, t.status = TaskStatus.queued ∨
      t.status = TaskStatus.inProgress) :
    (recomputeV1 ts results w).2 = ts := by
  have hsum := length_eq_sum_counts ts
  have hne : countByStatus ts TaskStatus.blocked +
      countByStatus ts TaskStatus.completed +
      countByStatus ts TaskStatus.failed ≠ ts.length := by
    obtain ⟨t, ht, hq | hip⟩ := hex
    · have := (countByStatus_pos_iff ts TaskStatus.queued).mpr ⟨t, ht, hq⟩
      omega
    · have := (countByStatus_pos_iff ts TaskStatus.inProgress).mpr ⟨t, ht, hip⟩
      omega
  simp only [countByStatus] at hne
  simp only [recomputeV1]
  rw [if_neg]
  rintro ⟨-, -, hc⟩
  exact hne hc

/-- C2 counterexample: the unnamed variant's aggregation sets a terminal
status before the stable point — on a snapshot with one `Failed` and one
still-`Queued` task (`completed + failed = 1 < 2 = total`) the workflow
status becomes `Failed`, not `InProgress`. -/
theorem recompute_premature_failed_counterexample :
    (recomputeV2 [eagerFailedTask, eagerQueuedTask] [] demoWorkflow).1.status =
      WorkflowStatus.failed ∧
    decide ((recomputeV2 [eagerFailedTask, eagerQueuedTask] []
      demoWorkflow).1.status = WorkflowStatus.inProgress) = false ∧
    countByStatus [eagerFailedTask, eagerQueuedTask] TaskStatus.completed +
      countByStatus [eagerFailedTask, eagerQueuedTask] TaskStatus.failed <
      ([eagerFailedTask, eagerQueuedTask] : List Task).length := by
  decide

/-- C2 amended: the `taskRunner.ts` aggregation behaves exactly as claimed —
all tasks `Completed` gives status `Completed` with finalResult exactly
`"Workflow finished with {completed} task(s) completed."`; at the stable
point with failures it gives status `Failed` with the completed/failed
counts followed by one `` Task {id} failed with {output}.`` line per failed
task; and before the stable point status is `InProgress`.  The unnamed
variant produces the same final results at the stable point (wording
`"... and {failed} task(s) failed. "` followed by `"Task {id} failed with
{output}. "` lines) but sets status `Failed` as soon as any task is
`Failed`, even before the stable point, `Completed` when all tasks are
`Completed`, and `InProgress` otherwise. -/
theorem recompute_status_final_result_amended :
    ∀ (ts : List Task) (results : List ResultRow) (w : Workflow),
      ((ts.all (fun t => t.status == TaskStatus.completed) = true →
        (recomputeV1 ts results w).1.status = WorkflowStatus.completed ∧
        (recomputeV1 ts results w).1.finalResult =
          some ("Workflow finished with " ++ toString ts.length ++
            " task(s) completed.")) ∧
      (countByStatus ts TaskStatus.completed +
          countByStatus ts TaskStatus.failed = ts.length →
        0 < countByStatus ts TaskStatus.failed →
        (recomputeV1 ts results w).1.status = WorkflowStatus.failed ∧
        (recomputeV1 ts results w).1.finalResult =
          some (("Workflow finished with " ++
            toString (countByStatus ts TaskStatus.completed) ++
            " task(s) completed and " ++
            toString (countByStatus ts TaskStatus.failed) ++
            " task(s) failed. Errors: ") ++
            concatLines (failedLineV1 results)
              (ts.filter (fun t => t.status == TaskStatus.failed)))) ∧
      (countByStatus ts TaskStatus.completed +
          countByStatus ts TaskStatus.failed < ts.length →
        (recomputeV1 ts results w).1.status = WorkflowStatus.inProgress)) ∧
      ((ts.all (fun t => t.status == TaskStatus.completed) = true →
        (recomputeV2 ts results w).1.status = WorkflowStatus.completed ∧
        (recomputeV2 ts results w).1.finalResult =
          some ("Workflow finished with " ++ toString ts.length ++
            " task(s) completed.")) ∧
      (0 < countByStatus ts TaskStatus.failed →
        (recomputeV2 ts results w).1.status = WorkflowStatus.failed) ∧
      (countByStatus ts TaskStatus.completed +
          countByStatus ts TaskStatus.failed = ts.length →
        0 < countByStatus ts TaskStatus.failed →
        (recomputeV2 ts results w).1.finalResult =
          some (("Workflow finished with " ++
            toString (countByStatus ts TaskStatus.completed) ++
            " task(s) completed and " ++
            toString (countByStatus ts TaskStatus.failed) ++
            " task(s) failed. ") ++
            concatLines (failedLineV2 results)
              (ts.filter (fun t => t.status == TaskStatus.failed)))) ∧
      (countByStatus ts TaskStatus.failed = 0 →
        countByStatus ts TaskStatus.completed < ts.length →
        (recomputeV2 ts results w).1.status = WorkflowStatus.inProgress)) := by
  intro ts results w
  refine ⟨⟨?_, ?_, ?_⟩, ?_, ?_, ?_, ?_⟩
  · intro h
    rw [recomputeV1_all_completed ts results w h]
    exact ⟨rfl, rfl⟩
  · intro hstable hpos
    rw [recomputeV1_stable_failed ts results w hstable hpos]
    exact ⟨rfl, rfl⟩
  · intro hlt
    rw [recomputeV1_not_stable ts results w hlt]
  · intro h
    rw [recomputeV2_all_completed ts results w h]
    exact ⟨rfl, rfl⟩
  · exact recomputeV2_any_failed_status ts results w
  · exact recomputeV2_stable_failed_finalResult ts results w
  · exact recomputeV2_quiet_inProgress ts results w

theorem recompute_status_final_result_amended_witness :
    (recomputeV1 [unblockDoneTask] [] demoWorkflow).1.status =
      WorkflowStatus.completed ∧
    (recomputeV1 [unblockDoneTask] [] demoWorkflow).1.finalResult =
      some "Workflow finished with 1 task(s) completed." := by
  have h := (recompute_status_final_result_amended [unblockDoneTask] []
    demoWorkflow).1.1 (by decide)
  refine ⟨h.1, ?_⟩
  rw [h.2]
  rfl

/-- C7: both aggregation variants compute workflow status and, at the stable
point, finalResult purely from the task snapshot (reading the previous
workflow row only to keep `finalResult` before the stable point), so on an
unchanged snapshot a second `recompute` returns exactly the first one's
output — same status, identical finalResult, same task updates; moreover a
terminal output (`Completed` or `Failed`) leaves the snapshot itself
untouched (no unblocking), so the status is monotonic from then on. -/
theorem recompute_idempotent_and_monotonic :
    ∀ (ts : List Task) (results : List ResultRow) (w : Workflow),
      (recomputeV1 ts results (recomputeV1 ts results w).1 =
        recomputeV1 ts results w) ∧
      (recomputeV2 ts results (recomputeV2 ts results w).1 =
        recomputeV2 ts results w) ∧
      ((recomputeV1 ts results w).1.status = WorkflowStatus.completed ∨
        (recomputeV1 ts results w).1.status = WorkflowStatus.failed →
        (recomputeV1 ts results w).2 = ts) ∧
      ((recomputeV2 ts results w).1.status = WorkflowStatus.completed ∨
        (recomputeV2 ts results w).1.status = WorkflowStatus.failed →
        (recomputeV2 ts results w).2 = ts) := by
  intro ts results w
  refine ⟨?_, ?_, ?_, ?_⟩
  · simp only [recomputeV1]
    split_ifs <;> rfl
  · simp only [recomputeV2]
    split_ifs <;> rfl
  · intro hst
    by_cases hstable : ts.length =
        (ts.filter (fun t => t.status == TaskStatus.completed)).length +
        (ts.filter (fun t => t.status == TaskStatus.failed)).length
    · by_cases hall : ts.all (fun t => t.status == TaskStatus.completed) = true <;>
        simp [recomputeV1, hstable, hall]
    · simp [recomputeV1, hstable] at hst
  · intro hst
    by_cases hany : ts.any (fun t => t.status == TaskStatus.failed) = true
    · simp [recomputeV2, hany]
    · by_cases hall : ts.all (fun t => t.status == TaskStatus.completed) = true
      · simp [recomputeV2, hany, hall]
      · simp [recomputeV2, hany, hall] at hst

theorem recompute_idempotent_and_monotonic_witness :
    (recomputeV1 [unblockDoneTask] [] demoWorkflow).2 = [unblockDoneTask] :=
  (recompute_idempotent_and_monotonic [unblockDoneTask] [] demoWorkflow).2.2.1
    (Or.inl (by decide))

/-- C8: in both variants, when the just-recomputed workflow status is
`InProgress` and `blocked + completed + failed = total`, the aggregation
re-queues every `Blocked` task (the snapshot becomes `ts.map unblockTask`,
and `unblockTask` sends `Blocked` to `Queued` leaving the rest alone); and
when some task is still `Queued` or `InProgress` no re-queuing happens at
all. -/
theorem recompute_unblock_rule :
    (∀ t : Task, t.status = TaskStatus.blocked →
      (unblockTask t).status = TaskStatus.queued) ∧
    (∀ t : Task, t.status ≠ TaskStatus.blocked → unblockTask t = t) ∧
    (∀ (ts : List Task) (results : List ResultRow) (w : Workflow),
      ((recomputeV2 ts results w).1.status = WorkflowStatus.inProgress →
        countByStatus ts TaskStatus.blocked +
          countByStatus ts TaskStatus.completed +
          countByStatus ts TaskStatus.failed = ts.length →
        (recomputeV2 ts results w).2 = ts.map unblockTask) ∧
      ((∃ t ∈ ts, t.status = TaskStatus.queued ∨
          t.status = TaskStatus.inProgress) →
        (recomputeV2 ts results w).2 = ts) ∧
      ((recomputeV1 ts results w).1.status = WorkflowStatus.inProgress →
        countByStatus ts TaskStatus.blocked +
          countByStatus ts TaskStatus.completed +
          countByStatus ts TaskStatus.failed = ts.length →
        (recomputeV1 ts results w).2 = ts.map unblockTask) ∧
      ((∃ t ∈ ts, t.status = TaskStatus.queued ∨
          t.status = TaskStatus.inProgress) →
        (recomputeV1 ts results w).2 = ts)) := by
  refine ⟨?_, ?_, ?_⟩
  · intro t ht
    simp [unblockTask, ht]
  · intro t ht
    simp only [unblockTask]
    rw [if_neg]
    simpa using ht
  · intro ts results w
    exact ⟨recomputeV2_unblocks ts results w, recomputeV2_no_unblock ts results w,
      recomputeV1_unblocks ts results w, recomputeV1_no_unblock ts results w⟩

theorem recompute_unblock_rule_witness :
    (recomputeV2 [unblockDoneTask, unblockBlockedTask] [] demoWorkflow).2 =
      [unblockDoneTask, unblockBlockedTask].map unblockTask :=
  (recompute_unblock_rule.2.2 [unblockDoneTask, unblockBlockedTask] []
    demoWorkflow).1 (by decide) (by decide)

end Engine
